import Mathlib

/-
Shallow embedding of the s3-image upload gateway (Go).

The repository has two source variants of the same HTTP service:
  * `Main`    embeds src/main.go         (the validating variant)
  * `Variant` embeds src/unnamed/part_000 (the non-validating variant)

Each handler is embedded as a function from the process-wide configuration
(the globals s3Client, bucket, region) and the already-extracted request
inputs to the new configuration paired with what the handler does next:
either it answers HTTP 400 with a plain-text message (`badRequest`), or it
invokes the storage backend with a fully described SDK call (`backend`).
`r.URL.Query().Get(k)` returns "" for an absent parameter, so a missing
query parameter and an empty one are both modeled by the empty string.
JSON body decoding is external (encoding/json); the Complete handlers
receive its result as `Option CompletePayload`, `none` meaning a decode
error and absent JSON fields decoding to zero values.
-/

/-- The process-wide globals of both variants: `s3Client` (an opaque SDK
client handle), `bucket`, and `region`. -/
structure Config where
  s3Client : Nat
  bucket : String
  region : String
deriving Repr, DecidableEq

/-- What a handler does after validation: answer 400 with a message, or
invoke the storage backend with call description `α`. -/
inductive HandlerStep (α : Type) where
  | badRequest (msg : String) : HandlerStep α
  | backend (call : α) : HandlerStep α
deriving Repr, DecidableEq

/-- True when the step is an HTTP 400 answer. -/
def HandlerStep.isBadRequest {α : Type} : HandlerStep α → Bool
  | .badRequest _ => true
  | .backend _ => false

/-- True when the step invokes the storage backend. -/
def HandlerStep.isBackend {α : Type} : HandlerStep α → Bool
  | .badRequest _ => false
  | .backend _ => true

/-- The arguments of `presignClient.PresignPutObject` plus the expiry
window passed via `s3.WithPresignExpires` (in minutes). -/
structure PresignPutCall where
  bucket : String
  key : String
  expiresMinutes : Nat
deriving Repr, DecidableEq

/-- The arguments of `s3Client.CreateMultipartUpload`. -/
structure CreateMultipartCall where
  bucket : String
  key : String
deriving Repr, DecidableEq

/-- The arguments of `presignClient.PresignUploadPart` plus the expiry
window (in minutes). `partNumber` is the int32 value passed to
`aws.Int32`. -/
structure UploadPartCall where
  bucket : String
  key : String
  uploadId : String
  partNumber : Int
  expiresMinutes : Nat
deriving Repr, DecidableEq

/-- One element of the decoded `parts` array of the Complete JSON body
(`eTag` string, `partNumber` int32). -/
structure PartIn where
  eTag : String
  partNumber : Int
deriving Repr, DecidableEq

/-- The decoded JSON body of a Complete request. -/
structure CompletePayload where
  key : String
  uploadId : String
  parts : List PartIn
deriving Repr, DecidableEq

/-- A `types.CompletedPart` as built in the handler loop. -/
structure CompletedPart where
  eTag : String
  partNumber : Int
deriving Repr, DecidableEq

/-- The arguments of `s3Client.CompleteMultipartUpload`. -/
structure CompleteMultipartCall where
  bucket : String
  key : String
  uploadId : String
  parts : List CompletedPart
deriving Repr, DecidableEq

/-- The body of the conversion loop in both Complete handlers:
`types.CompletedPart{ETag: aws.String(part.ETag), PartNumber: aws.Int32(part.PartNumber)}`. -/
def toCompletedPart (p : PartIn) : CompletedPart :=
  ⟨p.eTag, p.partNumber⟩

/-- Decimal digit value of a character, `none` if not a digit. -/
def digitVal (c : Char) : Option Nat :=
  if '0' ≤ c ∧ c ≤ '9' then some (c.toNat - 48) else none

/-- Accumulate decimal digits; fails on the first non-digit. -/
def parseDigitsAux : List Char → Nat → Option Nat
  | [], acc => some acc
  | c :: cs, acc =>
    match digitVal c with
    | some d => parseDigitsAux cs (acc * 10 + d)
    | none => none

/-- Parse a non-empty all-digit string as a natural number. -/
def parseNatDigits : List Char → Option Nat
  | [] => none
  | c :: cs => parseDigitsAux (c :: cs) 0

/-- Largest value of Go's 64-bit `int`. -/
def maxInt64 : Int := 9223372036854775807

/-- Smallest value of Go's 64-bit `int`. -/
def minInt64 : Int := -9223372036854775808

/-- Go's `strconv.Atoi` on a 64-bit platform, i.e. `ParseInt(s, 10, 64)`:
an optional sign followed by at least one decimal digit. Returns
(value, ok) where ok = (err == nil); a syntax error returns (0, false),
and a value out of the int64 range is clamped to the nearer bound with
ok = false (Go returns the clamped value together with ErrRange). -/
def atoi (s : String) : Int × Bool :=
  let cs := s.toList
  let signed : Bool × List Char :=
    match cs with
    | '-' :: rest => (true, rest)
    | '+' :: rest => (false, rest)
    | _ => (false, cs)
  match parseNatDigits signed.2 with
  | none => (0, false)
  | some m =>
    let v : Int := if signed.1 then -(m : Int) else (m : Int)
    if v > maxInt64 then (maxInt64, false)
    else if v < minInt64 then (minInt64, false)
    else (v, true)

/-- Go's `int32(n)` conversion of a 64-bit integer: two's-complement
truncation to 32 bits. -/
def toInt32 (n : Int) : Int :=
  (n + 2147483648) % 4294967296 - 2147483648

namespace Main

/-- src/main.go `handleGenerate`. -/
def handleGenerate (cfg : Config) (filename : String) :
    Config × HandlerStep PresignPutCall :=
  if filename = "" then
    (cfg, HandlerStep.badRequest "Missing filename")
  else
    (cfg, HandlerStep.backend ⟨cfg.bucket, "uploads/" ++ filename, 15⟩)

/-- src/main.go `handleInitiateMultipart`: reads the `key` query
parameter (into a variable named filename). -/
def handleInitiateMultipart (cfg : Config) (key : String) :
    Config × HandlerStep CreateMultipartCall :=
  if key = "" then
    (cfg, HandlerStep.badRequest "Missing key parameter")
  else
    (cfg, HandlerStep.backend ⟨cfg.bucket, "uploads/" ++ key⟩)

/-- src/main.go `handlePresignPart`: rejects empty parameters, then
rejects a partNumber that `strconv.Atoi` cannot parse. -/
def handlePresignPart (cfg : Config) (filename uploadId partNumStr : String) :
    Config × HandlerStep UploadPartCall :=
  if filename = "" ∨ uploadId = "" ∨ partNumStr = "" then
    (cfg, HandlerStep.badRequest "Missing required parameters (filename, uploadId, partNumber)")
  else
    match atoi partNumStr with
    | (_, false) => (cfg, HandlerStep.badRequest "Invalid partNumber")
    | (partNumber, true) =>
      (cfg, HandlerStep.backend
        ⟨cfg.bucket, "uploads/" ++ filename, uploadId, toInt32 partNumber, 15⟩)

/-- src/main.go `handleCompleteMultipart`: rejects a JSON decode error,
then empty key, empty uploadId or an empty parts list; otherwise converts
the parts one-to-one and calls CompleteMultipartUpload with the key
verbatim. -/
def handleCompleteMultipart (cfg : Config) (body : Option CompletePayload) :
    Config × HandlerStep CompleteMultipartCall :=
  match body with
  | none => (cfg, HandlerStep.badRequest "Invalid JSON")
  | some payload =>
    if payload.key = "" ∨ payload.uploadId = "" ∨ payload.parts.length = 0 then
      (cfg, HandlerStep.badRequest "Missing required fields (key, uploadId, parts)")
    else
      (cfg, HandlerStep.backend
        ⟨cfg.bucket, payload.key, payload.uploadId, payload.parts.map toCompletedPart⟩)

end Main

namespace Variant

/-- src/unnamed/part_000 `handleGenerate` (same logic as main.go). -/
def handleGenerate (cfg : Config) (filename : String) :
    Config × HandlerStep PresignPutCall :=
  if filename = "" then
    (cfg, HandlerStep.badRequest "Missing filename")
  else
    (cfg, HandlerStep.backend ⟨cfg.bucket, "uploads/" ++ filename, 15⟩)

/-- src/unnamed/part_000 `handleInitiateMultipart`: reads the `filename`
query parameter. -/
def handleInitiateMultipart (cfg : Config) (filename : String) :
    Config × HandlerStep CreateMultipartCall :=
  if filename = "" then
    (cfg, HandlerStep.badRequest "Missing filename")
  else
    (cfg, HandlerStep.backend ⟨cfg.bucket, "uploads/" ++ filename⟩)

/-- src/unnamed/part_000 `handlePresignPart`: parses partNumber with the
error discarded (`partNumber, _ := strconv.Atoi(...)`), then rejects the
request when filename or uploadId is empty or the parsed value is 0. -/
def handlePresignPart (cfg : Config) (filename uploadId partNumStr : String) :
    Config × HandlerStep UploadPartCall :=
  let partNumber := (atoi partNumStr).1
  if filename = "" ∨ uploadId = "" ∨ partNumber = 0 then
    (cfg, HandlerStep.badRequest "Missing required parameters")
  else
    (cfg, HandlerStep.backend
      ⟨cfg.bucket, "uploads/" ++ filename, uploadId, toInt32 partNumber, 15⟩)

/-- src/unnamed/part_000 `handleCompleteMultipart`: rejects only a JSON
decode error; any decoded payload (even with empty key, uploadId or
parts) is converted one-to-one and forwarded to the backend with the key
verbatim. -/
def handleCompleteMultipart (cfg : Config) (body : Option CompletePayload) :
    Config × HandlerStep CompleteMultipartCall :=
  match body with
  | none => (cfg, HandlerStep.badRequest "Invalid JSON")
  | some payload =>
    (cfg, HandlerStep.backend
      ⟨cfg.bucket, payload.key, payload.uploadId, payload.parts.map toCompletedPart⟩)

end Variant

/-- Claim C1, counterexample: in the non-validating variant
(src/unnamed/part_000), a Complete request whose decoded key, uploadId
and parts are all missing (zero values) is not answered with 400: the
handler invokes the storage backend. -/
theorem C1_counterexample :
    (Variant.handleCompleteMultipart ⟨0, "b", "r"⟩ (some ⟨"", "", []⟩)).2 =
      HandlerStep.backend ⟨"b", "", "", []⟩ ∧
    (Variant.handleCompleteMultipart ⟨0, "b", "r"⟩ (some ⟨"", "", []⟩)).2.isBadRequest = false :=
  ⟨rfl, rfl⟩

/-- Claim C1 (amended): in the validating variant (src/main.go) every
endpoint answers 400 without invoking the backend when a required
parameter is missing or empty; in the non-validating variant
(src/unnamed/part_000) this holds for Generate, Initiate and Presign
Part, but Complete forwards every successfully decoded body to the
backend regardless of missing fields. -/
theorem C1_thm (cfg : Config) (f u p : String) (pl : CompletePayload) :
    (Main.handleGenerate cfg "").2.isBadRequest = true ∧
    (Main.handleInitiateMultipart cfg "").2.isBadRequest = true ∧
    ((f = "" ∨ u = "" ∨ p = "") →
      (Main.handlePresignPart cfg f u p).2.isBadRequest = true) ∧
    ((pl.key = "" ∨ pl.uploadId = "" ∨ pl.parts = []) →
      (Main.handleCompleteMultipart cfg (some pl)).2.isBadRequest = true) ∧
    (Variant.handleGenerate cfg "").2.isBadRequest = true ∧
    (Variant.handleInitiateMultipart cfg "").2.isBadRequest = true ∧
    ((f = "" ∨ u = "" ∨ p = "") →
      (Variant.handlePresignPart cfg f u p).2.isBadRequest = true) ∧
    (Variant.handleCompleteMultipart cfg (some pl)).2 =
      HandlerStep.backend ⟨cfg.bucket, pl.key, pl.uploadId, pl.parts.map toCompletedPart⟩ := by
  refine ⟨rfl, rfl, ?_, ?_, rfl, rfl, ?_, rfl⟩
  · intro h
    simp only [Main.handlePresignPart]
    rw [if_pos h]
    rfl
  · intro h
    have hc : pl.key = "" ∨ pl.uploadId = "" ∨ pl.parts.length = 0 := by
      rcases h with h | h | h
      · exact Or.inl h
      · exact Or.inr (Or.inl h)
      · exact Or.inr (Or.inr (by rw [h]; rfl))
    simp only [Main.handleCompleteMultipart]
    rw [if_pos hc]
    rfl
  · intro h
    simp only [Variant.handlePresignPart]
    have hc : f = "" ∨ u = "" ∨ (atoi p).1 = 0 := by
      rcases h with h | h | h
      · exact Or.inl h
      · exact Or.inr (Or.inl h)
      · exact Or.inr (Or.inr (by rw [h]; rfl))
    rw [if_pos hc]
    rfl

/-- Witness for C1_thm at concrete inputs. -/
theorem C1_witness :
    (Main.handlePresignPart ⟨0, "b", "r"⟩ "" "u" "1").2.isBadRequest = true ∧
    (Main.handleCompleteMultipart ⟨0, "b", "r"⟩ (some ⟨"", "", []⟩)).2.isBadRequest = true :=
  ⟨(C1_thm ⟨0, "b", "r"⟩ "" "u" "1" ⟨"", "", []⟩).2.2.1 (Or.inl rfl),
   (C1_thm ⟨0, "b", "r"⟩ "" "u" "1" ⟨"", "", []⟩).2.2.2.1 (Or.inl rfl)⟩

/-- Claim C2, counterexample: the non-validating variant does not proceed
to the backend on a non-numeric partNumber; its partNumber == 0 check
turns the parse failure (value 0) into a 400 answer. -/
theorem C2_counterexample :
    (Variant.handlePresignPart ⟨0, "b", "r"⟩ "f.txt" "uid" "abc").2 =
      HandlerStep.badRequest "Missing required parameters" ∧
    (Variant.handlePresignPart ⟨0, "b", "r"⟩ "f.txt" "uid" "abc").2.isBackend = false := by
  exact ⟨by decide, by decide⟩

/-- Claim C2 (amended): for every Presign Part request with non-empty
filename and uploadId whose partNumber is present but fails to parse as
an integer, both variants answer 400: the validating variant with
"Invalid partNumber", the non-validating variant with "Missing required
parameters" (its partNumber == 0 check fires on the discarded-error
parse result 0). -/
theorem C2_thm (cfg : Config) (f u p : String) (hf : f ≠ "") (hu : u ≠ "")
    (hp0 : p ≠ "") (hp : atoi p = (0, false)) :
    (Main.handlePresignPart cfg f u p).2 =
      HandlerStep.badRequest "Invalid partNumber" ∧
    (Variant.handlePresignPart cfg f u p).2 =
      HandlerStep.badRequest "Missing required parameters" := by
  constructor
  · simp only [Main.handlePresignPart]
    rw [if_neg (by simp [hf, hu, hp0]), hp]
  · simp only [Variant.handlePresignPart]
    rw [if_pos (Or.inr (Or.inr (by rw [hp])))]

/-- Witness for C2_thm at concrete inputs. -/
theorem C2_witness :
    (Main.handlePresignPart ⟨0, "b", "r"⟩ "f" "u" "abc").2 =
      HandlerStep.badRequest "Invalid partNumber" ∧
    (Variant.handlePresignPart ⟨0, "b", "r"⟩ "f" "u" "abc").2 =
      HandlerStep.badRequest "Missing required parameters" :=
  C2_thm ⟨0, "b", "r"⟩ "f" "u" "abc" (by decide) (by decide) (by decide) (by decide)

/-- Claim C3: a Complete request whose decoded parts list is empty is
answered 400 without a backend call by the validating variant, and is
forwarded to the backend with an empty parts list by the non-validating
variant. -/
theorem C3_thm (cfg : Config) (k u : String) :
    (Main.handleCompleteMultipart cfg (some ⟨k, u, []⟩)).2 =
      HandlerStep.badRequest "Missing required fields (key, uploadId, parts)" ∧
    (Variant.handleCompleteMultipart cfg (some ⟨k, u, []⟩)).2 =
      HandlerStep.backend ⟨cfg.bucket, k, u, []⟩ := by
  constructor
  · simp only [Main.handleCompleteMultipart]
    rw [if_pos (Or.inr (Or.inr (by rfl)))]
  · rfl

/-- Claim C4, counterexample: the validating variant reaches the backend
signing call for partNumber "-5", which parses but is not a positive
integer. -/
theorem C4_counterexample :
    (Main.handlePresignPart ⟨0, "b", "r"⟩ "f" "u" "-5").2 =
      HandlerStep.backend ⟨"b", "uploads/f", "u", -5, 15⟩ ∧
    ¬ (0 < (-5 : Int)) := by
  exact ⟨by decide, by decide⟩

/-- Claim C4 (amended): with non-empty filename and uploadId, a missing
or non-numeric partNumber yields 400 in both variants, and the backend
signing call is reached in the validating variant exactly when partNumber
is present and parses as an integer (positive or not), and in the
non-validating variant exactly when the parse result is non-zero. -/
theorem C4_thm (cfg : Config) (f u p : String) (hf : f ≠ "") (hu : u ≠ "") :
    ((Main.handlePresignPart cfg f u p).2.isBackend = true ↔
      p ≠ "" ∧ (atoi p).2 = true) ∧
    ((Variant.handlePresignPart cfg f u p).2.isBackend = true ↔
      (atoi p).1 ≠ 0) := by
  constructor
  · by_cases hp : p = ""
    · simp only [Main.handlePresignPart]
      rw [if_pos (Or.inr (Or.inr hp))]
      simp [HandlerStep.isBackend, hp]
    · simp only [Main.handlePresignPart]
      rw [if_neg (by simp [hf, hu, hp])]
      rcases hA : atoi p with ⟨v, b⟩
      cases b
      · simp [HandlerStep.isBackend]
      · simp [HandlerStep.isBackend, hp]
  · by_cases hv : (atoi p).1 = 0
    · simp only [Variant.handlePresignPart]
      rw [if_pos (Or.inr (Or.inr hv))]
      simp [HandlerStep.isBackend, hv]
    · simp only [Variant.handlePresignPart]
      rw [if_neg (by simp [hf, hu, hv])]
      simp [HandlerStep.isBackend, hv]

/-- Witness for C4_thm at concrete inputs. -/
theorem C4_witness :
    (Main.handlePresignPart ⟨0, "b", "r"⟩ "f" "u" "3").2.isBackend = true ∧
    (Variant.handlePresignPart ⟨0, "b", "r"⟩ "f" "u" "3").2.isBackend = true :=
  ⟨((C4_thm ⟨0, "b", "r"⟩ "f" "u" "3" (by decide) (by decide)).1).mpr
      ⟨by decide, by decide⟩,
   ((C4_thm ⟨0, "b", "r"⟩ "f" "u" "3" (by decide) (by decide)).2).mpr (by decide)⟩

/-- Claim C5: for every Generate request with a non-empty filename, the
object key submitted to the backend is exactly "uploads/" ++ filename,
in both variants. -/
theorem C5_thm (cfg : Config) (filename : String) (h : filename ≠ "") :
    (Main.handleGenerate cfg filename).2 =
      HandlerStep.backend ⟨cfg.bucket, "uploads/" ++ filename, 15⟩ ∧
    (Variant.handleGenerate cfg filename).2 =
      HandlerStep.backend ⟨cfg.bucket, "uploads/" ++ filename, 15⟩ := by
  constructor
  · simp only [Main.handleGenerate]
    rw [if_neg h]
  · simp only [Variant.handleGenerate]
    rw [if_neg h]

/-- Witness for C5_thm at a concrete input. -/
theorem C5_witness :
    (Main.handleGenerate ⟨0, "b", "r"⟩ "pic.png").2 =
      HandlerStep.backend ⟨"b", "uploads/pic.png", 15⟩ ∧
    (Variant.handleGenerate ⟨0, "b", "r"⟩ "pic.png").2 =
      HandlerStep.backend ⟨"b", "uploads/pic.png", 15⟩ :=
  C5_thm ⟨0, "b", "r"⟩ "pic.png" (by decide)

/-- Claim C6: for every Complete request that passes validation, the
parts submitted to the backend are the one-to-one image of the client's
parts: same length and, at every index, exactly the client's eTag and
partNumber; no sorting, deduplication or contiguity check. The
non-validating variant forwards the same one-to-one image for every
decoded body. -/
theorem C6_thm (cfg : Config) (pl : CompletePayload)
    (hk : pl.key ≠ "") (hu : pl.uploadId ≠ "") (hp : pl.parts ≠ []) :
    (Main.handleCompleteMultipart cfg (some pl)).2 =
      HandlerStep.backend ⟨cfg.bucket, pl.key, pl.uploadId, pl.parts.map toCompletedPart⟩ ∧
    (Variant.handleCompleteMultipart cfg (some pl)).2 =
      HandlerStep.backend ⟨cfg.bucket, pl.key, pl.uploadId, pl.parts.map toCompletedPart⟩ ∧
    (pl.parts.map toCompletedPart).length = pl.parts.length ∧
    ∀ i : Nat, (pl.parts.map toCompletedPart)[i]? =
      (pl.parts[i]?).map (fun q => ⟨q.eTag, q.partNumber⟩) := by
  refine ⟨?_, rfl, List.length_map _ _, ?_⟩
  · simp only [Main.handleCompleteMultipart]
    rw [if_neg (by simp [hk, hu, List.length_eq_zero, hp])]
  · intro i
    simp only [List.getElem?_map]
    rfl

/-- Witness for C6_thm at a concrete input with two parts. -/
theorem C6_witness :
    (Main.handleCompleteMultipart ⟨0, "b", "r"⟩
        (some ⟨"uploads/a", "uid", [⟨"e1", 1⟩, ⟨"e2", 2⟩]⟩)).2 =
      HandlerStep.backend ⟨"b", "uploads/a", "uid", [⟨"e1", 1⟩, ⟨"e2", 2⟩]⟩ := by
  have h := C6_thm ⟨0, "b", "r"⟩ ⟨"uploads/a", "uid", [⟨"e1", 1⟩, ⟨"e2", 2⟩]⟩
    (by decide) (by decide) (by decide)
  exact h.1

/-- Claim C7: every presigned URL issued by Generate and every presigned
URL issued by Presign Part, in either variant, is requested from the
backend with an expiry window of exactly 15 minutes. -/
theorem C7_thm (cfg : Config) (f u p : String) :
    (∀ c, (Main.handleGenerate cfg f).2 = HandlerStep.backend c →
      c.expiresMinutes = 15) ∧
    (∀ c, (Main.handlePresignPart cfg f u p).2 = HandlerStep.backend c →
      c.expiresMinutes = 15) ∧
    (∀ c, (Variant.handleGenerate cfg f).2 = HandlerStep.backend c →
      c.expiresMinutes = 15) ∧
    (∀ c, (Variant.handlePresignPart cfg f u p).2 = HandlerStep.backend c →
      c.expiresMinutes = 15) := by
  refine ⟨?_, ?_, ?_, ?_⟩
  · intro c hc
    unfold Main.handleGenerate at hc
    split at hc <;> simp_all
    subst hc
    rfl
  · intro c hc
    unfold Main.handlePresignPart at hc
    split at hc
    · simp_all
    · split at hc <;> simp_all
      subst hc
      rfl
  · intro c hc
    unfold Variant.handleGenerate at hc
    split at hc <;> simp_all
    subst hc
    rfl
  · intro c hc
    simp only [Variant.handlePresignPart] at hc
    split at hc <;> simp_all
    subst hc
    rfl

/-- Witness for C7_thm at concrete inputs. -/
theorem C7_witness :
    (⟨"b", "uploads/f", 15⟩ : PresignPutCall).expiresMinutes = 15 ∧
    (⟨"b", "uploads/f", "u", 3, 15⟩ : UploadPartCall).expiresMinutes = 15 :=
  ⟨(C7_thm ⟨0, "b", "r"⟩ "f" "u" "3").1 ⟨"b", "uploads/f", 15⟩ (by decide),
   (C7_thm ⟨0, "b", "r"⟩ "f" "u" "3").2.2.2 ⟨"b", "uploads/f", "u", 3, 15⟩ (by decide)⟩

/-- Claim C8: no handler in either variant modifies the shared
configuration (s3Client, bucket, region): the configuration after any
request equals the configuration before it. -/
theorem C8_thm (cfg : Config) (f u p : String) (body : Option CompletePayload) :
    (Main.handleGenerate cfg f).1 = cfg ∧
    (Main.handleInitiateMultipart cfg f).1 = cfg ∧
    (Main.handlePresignPart cfg f u p).1 = cfg ∧
    (Main.handleCompleteMultipart cfg body).1 = cfg ∧
    (Variant.handleGenerate cfg f).1 = cfg ∧
    (Variant.handleInitiateMultipart cfg f).1 = cfg ∧
    (Variant.handlePresignPart cfg f u p).1 = cfg ∧
    (Variant.handleCompleteMultipart cfg body).1 = cfg := by
  refine ⟨?_, ?_, ?_, ?_, ?_, ?_, ?_, ?_⟩
  · unfold Main.handleGenerate
    split <;> rfl
  · unfold Main.handleInitiateMultipart
    split <;> rfl
  · unfold Main.handlePresignPart
    split
    · rfl
    · split <;> rfl
  · unfold Main.handleCompleteMultipart
    rcases body with _ | pl
    · rfl
    · dsimp only
      split <;> rfl
  · unfold Variant.handleGenerate
    split <;> rfl
  · unfold Variant.handleInitiateMultipart
    split <;> rfl
  · simp only [Variant.handlePresignPart]
    split <;> rfl
  · unfold Variant.handleCompleteMultipart
    rcases body with _ | pl <;> rfl

/-- Claim C9, counterexample: the numeric input 9223372036854775808
(2^63, outside the int32 range) is not silently signed modulo 2^32: the
validating variant reports 400 "Invalid partNumber" (Atoi range error),
and the non-validating variant signs part -1 (the narrowing of the
clamped 64-bit maximum), not 2^63 reduced modulo 2^32, which is 0. -/
theorem C9_counterexample :
    (Main.handlePresignPart ⟨0, "b", "r"⟩ "f" "u" "9223372036854775808").2 =
      HandlerStep.badRequest "Invalid partNumber" ∧
    (Variant.handlePresignPart ⟨0, "b", "r"⟩ "f" "u" "9223372036854775808").2 =
      HandlerStep.backend ⟨"b", "uploads/f", "u", -1, 15⟩ ∧
    (9223372036854775808 : Int) % 4294967296 = 0 ∧
    (-1 : Int) ≠ 0 := by
  exact ⟨by decide, by decide, by decide, by decide⟩

/-- Claim C9 (amended): for every partNumber input that Atoi parses
successfully (hence within the int64 range), the validating variant
reaches the backend with the two's-complement 32-bit narrowing of the
parsed value, which is congruent to it modulo 2^32 (so 4294967296
becomes part 0 with no error); the non-validating variant does the same
whenever the parsed value is non-zero. Inputs beyond the int64 range
fail the parse instead. -/
theorem C9_thm (cfg : Config) (f u p : String) (n : Int) (hf : f ≠ "")
    (hu : u ≠ "") (hp : atoi p = (n, true)) :
    (Main.handlePresignPart cfg f u p).2 =
      HandlerStep.backend ⟨cfg.bucket, "uploads/" ++ f, u, toInt32 n, 15⟩ ∧
    toInt32 n % 4294967296 = n % 4294967296 ∧
    (n ≠ 0 → (Variant.handlePresignPart cfg f u p).2 =
      HandlerStep.backend ⟨cfg.bucket, "uploads/" ++ f, u, toInt32 n, 15⟩) := by
  have hp0 : p ≠ "" := by
    intro h
    rw [h] at hp
    have he : ((0 : Int), false) = (n, true) := hp
    have hb : false = true := congrArg Prod.snd he
    exact Bool.noConfusion hb
  refine ⟨?_, ?_, ?_⟩
  · simp only [Main.handlePresignPart]
    rw [if_neg (by simp [hf, hu, hp0]), hp]
  · unfold toInt32
    omega
  · intro hn
    simp only [Variant.handlePresignPart, hp]
    rw [if_neg (by simp [hf, hu, hn])]

/-- Witness for C9_thm: input 4294967296 = 2^32 is signed as part 0. -/
theorem C9_witness :
    (Main.handlePresignPart ⟨0, "b", "r"⟩ "f" "u" "4294967296").2 =
      HandlerStep.backend ⟨"b", "uploads/f", "u", toInt32 4294967296, 15⟩ ∧
    toInt32 4294967296 = 0 :=
  ⟨(C9_thm ⟨0, "b", "r"⟩ "f" "u" "4294967296" 4294967296
      (by decide) (by decide) (by decide)).1,
   by decide⟩

/-- Claim C10: Generate, Initiate and Presign Part prepend "uploads/" to
the client-supplied name before calling the backend, in both variants,
while Complete passes the client-supplied key to the backend verbatim
with no prefixing, in both variants. -/
theorem C10_thm (cfg : Config) (f u p : String) (pl : CompletePayload)
    (hf : f ≠ "") (hu : u ≠ "") (hok : (atoi p).2 = true) :
    (Main.handleGenerate cfg f).2 =
      HandlerStep.backend ⟨cfg.bucket, "uploads/" ++ f, 15⟩ ∧
    (Variant.handleGenerate cfg f).2 =
      HandlerStep.backend ⟨cfg.bucket, "uploads/" ++ f, 15⟩ ∧
    (Main.handleInitiateMultipart cfg f).2 =
      HandlerStep.backend ⟨cfg.bucket, "uploads/" ++ f⟩ ∧
    (Variant.handleInitiateMultipart cfg f).2 =
      HandlerStep.backend ⟨cfg.bucket, "uploads/" ++ f⟩ ∧
    (Main.handlePresignPart cfg f u p).2 =
      HandlerStep.backend ⟨cfg.bucket, "uploads/" ++ f, u, toInt32 (atoi p).1, 15⟩ ∧
    ((atoi p).1 ≠ 0 → (Variant.handlePresignPart cfg f u p).2 =
      HandlerStep.backend ⟨cfg.bucket, "uploads/" ++ f, u, toInt32 (atoi p).1, 15⟩) ∧
    (∀ call, (Main.handleCompleteMultipart cfg (some pl)).2 = HandlerStep.backend call →
      call.key = pl.key) ∧
    (Variant.handleCompleteMultipart cfg (some pl)).2 =
      HandlerStep.backend ⟨cfg.bucket, pl.key, pl.uploadId, pl.parts.map toCompletedPart⟩ := by
  have hp0 : p ≠ "" := by
    intro h
    rw [h] at hok
    have hb : false = true := hok
    exact Bool.noConfusion hb
  refine ⟨?_, ?_, ?_, ?_, ?_, ?_, ?_, rfl⟩
  · simp only [Main.handleGenerate]
    rw [if_neg hf]
  · simp only [Variant.handleGenerate]
    rw [if_neg hf]
  · simp only [Main.handleInitiateMultipart]
    rw [if_neg hf]
  · simp only [Variant.handleInitiateMultipart]
    rw [if_neg hf]
  · simp only [Main.handlePresignPart]
    rw [if_neg (by simp [hf, hu, hp0])]
    rcases hA : atoi p with ⟨v, b⟩
    rw [hA] at hok
    cases b
    · exact Bool.noConfusion hok
    · rfl
  · intro hn
    simp only [Variant.handlePresignPart]
    rw [if_neg (by simp [hf, hu, hn])]
  · intro call hc
    unfold Main.handleCompleteMultipart at hc
    split at hc <;> simp_all
    split at hc <;> simp_all
    subst hc
    rfl

/-- Witness for C10_thm at concrete inputs. -/
theorem C10_witness :
    (Main.handleGenerate ⟨0, "b", "r"⟩ "f.png").2 =
      HandlerStep.backend ⟨"b", "uploads/f.png", 15⟩ ∧
    (Variant.handlePresignPart ⟨0, "b", "r"⟩ "f.png" "uid" "2").2 =
      HandlerStep.backend ⟨"b", "uploads/f.png", "uid", toInt32 (atoi "2").1, 15⟩ ∧
    (⟨"b", "k", "u", [⟨"e", (1 : Int)⟩]⟩ : CompleteMultipartCall).key = "k" :=
  ⟨(C10_thm ⟨0, "b", "r"⟩ "f.png" "uid" "2" ⟨"k", "u", [⟨"e", 1⟩]⟩
      (by decide) (by decide) (by decide)).1,
   (C10_thm ⟨0, "b", "r"⟩ "f.png" "uid" "2" ⟨"k", "u", [⟨"e", 1⟩]⟩
      (by decide) (by decide) (by decide)).2.2.2.2.2.1 (by decide),
   (C10_thm ⟨0, "b", "r"⟩ "f.png" "uid" "2" ⟨"k", "u", [⟨"e", 1⟩]⟩
      (by decide) (by decide) (by decide)).2.2.2.2.2.2.1
     ⟨"b", "k", "u", [⟨"e", 1⟩]⟩ (by decide)⟩
